import Mathlib

/-
Verification development for the photo verification orchestration engine
(multi-tenant backend: criteria evaluation, retry/backoff orchestration,
cost estimation, tenant-scoped rate limiting, billing aggregation).

The definitions below are a shallow embedding of the TypeScript sources:
  * the verification service (evaluateCriteria, runVerification),
  * the vision service's static price table and estimateCostUsd,
  * the zod VerifyRequestSchema refinements,
  * the rate limiter (checkRateLimit over a key-value counter store),
  * the billing aggregation route's tenant scoping.

JavaScript numbers are embedded as rationals (ℚ); token counts, retry
counters and epoch seconds as naturals.  Fallible operations return
Except/Option.  Wall-clock stamps (processingTimeMs, processedAt) and the
raw model response echo are outside the embedding: no claim depends on
them.  The provider's network behaviour is abstracted as a function from
the attempt index to the outcome of that analyze() call.
-/

namespace PhotoVerify

/-- A JavaScript runtime value as it appears in criterion payloads:
the `value` of a criterion result (and `expectedValue` of a criterion)
is `boolean | number | string`. -/
inductive JSValue where
  | bool (b : Bool)
  | num (q : ℚ)
  | str (s : String)
deriving DecidableEq

/-- `type` of a criterion: `z.enum(['boolean', 'count', 'text'])`. -/
inductive CriterionType where
  | boolean
  | count
  | text
deriving DecidableEq

/-- One declarative check, from `VerificationCriterionSchema`. -/
structure VerificationCriterion where
  id : String
  label : String
  type : CriterionType
  required : Bool
  expectedValue : Option JSValue := none
  min : Option ℚ := none
  max : Option ℚ := none
deriving DecidableEq

/-- `AIProviderSchema = z.enum(['openai', 'gemini'])`. -/
inductive AIProvider where
  | openai
  | gemini
deriving DecidableEq

/-- `PhotoVerificationConfigSchema`.  `provider` and `model` are optional
here because `runVerification` re-applies its own defaults (`||`) to
configs loaded from the task row. -/
structure PhotoVerificationConfig where
  prompt : String
  criteria : List VerificationCriterion
  provider : Option AIProvider := none
  model : Option String := none
  maxRetries : ℕ := 2
  fallbackToManual : Bool := true
  confidenceThreshold : ℚ := 8/10
deriving DecidableEq

/-- One entry of the provider response's `criteria_results`. -/
structure RawCriterionResult where
  criterion_id : String
  passed : Bool
  value : JSValue
  confidence : ℚ
  reasoning : String
deriving DecidableEq

/-- `VisionAnalysisResult`: the parsed structured response of a provider. -/
structure VisionAnalysisResult where
  criteria_results : List RawCriterionResult
  overall_assessment : String
  overall_confidence : ℚ
deriving DecidableEq

/-- Provider-reported token counts of one analyze() invocation. -/
structure TokenUsage where
  inputTokens : ℕ
  outputTokens : ℕ
deriving DecidableEq

/-- `VisionAnalysisWithUsage`: analysis plus its token usage. -/
structure VisionAnalysisWithUsage where
  analysis : VisionAnalysisResult
  tokenUsage : TokenUsage
deriving DecidableEq

/-- `CriterionResult`: the evaluator's per-criterion verdict. -/
structure CriterionResult where
  criterionId : String
  label : String
  passed : Bool
  value : JSValue
  confidence : ℚ
  reasoning : String
deriving DecidableEq

/-- JS `parseInt(s, 10)`: skip leading whitespace, optional sign, then the
longest prefix of decimal digits; `none` plays the role of `NaN`. -/
def parseIntJS (s : String) : Option ℤ :=
  let l := s.data.dropWhile (fun c => c = ' ' ∨ c = '\t' ∨ c = '\n' ∨ c = '\r')
  let signAndRest : ℤ × List Char :=
    match l with
    | '-' :: t => (-1, t)
    | '+' :: t => (1, t)
    | t => (1, t)
  let ds := signAndRest.2.takeWhile (fun c => c.isDigit)
  if ds.isEmpty then none
  else some (signAndRest.1 * (ds.foldl (fun acc c => acc * 10 + (c.toNat - 48)) 0 : ℕ))

/-- `typeof value === 'number' ? value : parseInt(String(value), 10)`:
the numeric reading of an observed value; `none` is `NaN` (for booleans,
`String(value)` is `"true"`/`"false"`, which `parseInt` cannot read). -/
def jsToCount : JSValue → Option ℚ
  | JSValue.num q => some q
  | JSValue.str s => (parseIntJS s).map (fun n => (n : ℚ))
  | JSValue.bool b => (parseIntJS (if b then "true" else "false")).map (fun n => (n : ℚ))

/-- JS `<` between a possibly-NaN number and a possibly-undefined bound:
false unless both are actual numbers. -/
def ltOptQ : Option ℚ → Option ℚ → Bool
  | some a, some b => decide (a < b)
  | _, _ => false

/-- The `count`-branch of the evaluator: force `passed = false` when the
parsed count is below `min` or above `max`. -/
def countGate (criterion : VerificationCriterion) (raw : RawCriterionResult)
    (p : Bool) : Bool :=
  let count := jsToCount raw.value
  let pa := if ltOptQ count criterion.min then false else p
  if ltOptQ criterion.max count then false else pa

/-- The per-criterion `passed` value after the type-specific overrides but
before the confidence gate (`let passed = result.passed; if (type ...)`). -/
def passedPreGate (criterion : VerificationCriterion) (raw : RawCriterionResult) : Bool :=
  let p1 :=
    if criterion.type = CriterionType.count ∧ (criterion.min.isSome ∨ criterion.max.isSome)
    then countGate criterion raw raw.passed
    else raw.passed
  match criterion.expectedValue with
  | some ev => if criterion.type = CriterionType.boolean then decide (raw.value = ev) else p1
  | none => p1

/-- The result emitted for a configured criterion the provider omitted. -/
def notEvaluatedResult (criterion : VerificationCriterion) : CriterionResult :=
  { criterionId := criterion.id
    label := criterion.label
    passed := false
    value := JSValue.str "NOT_EVALUATED"
    confidence := 0
    reasoning := "Criterion was not evaluated by the model" }

/-- The evaluator's output for one configured criterion: look the criterion
up in the provider's `criteria_results`, apply the type-specific override,
then the confidence gate. -/
def evalOne (analysisResults : VisionAnalysisResult) (config : PhotoVerificationConfig)
    (criterion : VerificationCriterion) : CriterionResult :=
  match analysisResults.criteria_results.find? (fun r => r.criterion_id == criterion.id) with
  | none => notEvaluatedResult criterion
  | some result =>
    { criterionId := criterion.id
      label := criterion.label
      passed :=
        if result.confidence < config.confidenceThreshold then false
        else passedPreGate criterion result
      value := result.value
      confidence := result.confidence
      reasoning := result.reasoning }

/-- `evaluateCriteria`: one `CriterionResult` per configured criterion,
preserving config order. -/
def evaluateCriteria (analysisResults : VisionAnalysisResult)
    (config : PhotoVerificationConfig) : List CriterionResult :=
  config.criteria.map (evalOne analysisResults config)

/-- `config.criteria.filter(required).every(c => find(...)?.passed === true)`. -/
def requiredAllPassed (config : PhotoVerificationConfig)
    (criteriaResults : List CriterionResult) : Bool :=
  (config.criteria.filter (fun c => c.required)).all fun c =>
    match criteriaResults.find? (fun r => r.criterionId == c.id) with
    | some r => r.passed
    | none => false

/-- The overall verdict `runVerification` assigns on the success path:
`allRequiredPassed && overallConfidence >= config.confidenceThreshold`. -/
def overallPassed (analysis : VisionAnalysisResult)
    (config : PhotoVerificationConfig) : Bool :=
  requiredAllPassed config (evaluateCriteria analysis config)
    && decide (config.confidenceThreshold ≤ analysis.overall_confidence)

/-- The behaviour of a provider backend: the outcome of the i-th
analyze() attempt (0-indexed); a thrown error is `Except.error`. -/
def ProviderBehavior : Type := ℕ → Except String VisionAnalysisWithUsage

/-- Componentwise accumulation of token usage (`totalTokenUsage.x += ...`). -/
def addUsage (a b : TokenUsage) : TokenUsage :=
  ⟨a.inputTokens + b.inputTokens, a.outputTokens + b.outputTokens⟩

/-- State of the retry loop when it exits: the analysis on success (`none`
when every attempt failed), the final `retryCount`, the accumulated token
usage, the backoff delays slept (milliseconds, in order), the last error,
and the number of analyze() attempts made. -/
structure LoopResult where
  analysis : Option VisionAnalysisResult
  retryCount : ℕ
  usage : TokenUsage
  delays : List ℕ
  lastError : Option String
  attempts : ℕ
deriving DecidableEq

/-- One unrolling of `while (retryCount <= maxRetries && !analysisWithUsage)`:
while looping, every previous attempt has failed, so `retryCount` equals the
number of attempts made so far and doubles as the next attempt's index.
`fuel` keeps `fuel + retryCount = m + 1` so that `fuel = 0` is exactly the
loop condition `retryCount ≤ m` turning false.  On failure `retryCount`
increments and, when another attempt is still allowed, the loop sleeps
`1000 * 2 ^ (retryCount - 1)` ms. -/
def retryGo (f : ProviderBehavior) (m : ℕ) :
    ℕ → ℕ → TokenUsage → List ℕ → Option String → LoopResult
  | 0, rc, usage, delays, le => ⟨none, rc, usage, delays, le, rc⟩
  | fuel + 1, rc, usage, delays, le =>
    match f rc with
    | Except.ok a => ⟨some a.analysis, rc, addUsage usage a.tokenUsage, delays, le, rc + 1⟩
    | Except.error e =>
      if rc + 1 ≤ m then
        retryGo f m fuel (rc + 1) usage (delays ++ [1000 * 2 ^ rc]) (some e)
      else
        retryGo f m fuel (rc + 1) usage delays (some e)

/-- The retry loop of `runVerification`, entered with `retryCount = 0` and
empty accumulators; `m` is the resolved `maxRetries`. -/
def retryLoop (f : ProviderBehavior) (m : ℕ) : LoopResult :=
  retryGo f m (m + 1) 0 ⟨0, 0⟩ [] none

/-- `const maxRetries = config.maxRetries || 2`: JavaScript `||` treats an
explicit `0` (and `undefined`) as unset, replacing it with the default 2. -/
def effectiveMaxRetries (maxRetries : ℕ) : ℕ :=
  if maxRetries = 0 then 2 else maxRetries

/-- `defaultModels` of the verification service. -/
def defaultModelFor : AIProvider → String
  | AIProvider.openai => "gpt-4o-mini"
  | AIProvider.gemini => "gemini-2.0-flash"

/-- The provider's wire name, used in the `provider/model` label. -/
def providerName : AIProvider → String
  | AIProvider.openai => "openai"
  | AIProvider.gemini => "gemini"

/-- `config.model || defaultModels[provider]` (an empty string is falsy). -/
def resolveModel (config : PhotoVerificationConfig) (provider : AIProvider) : String :=
  match config.model with
  | some s => if s.isEmpty then defaultModelFor provider else s
  | none => defaultModelFor provider

/-- Per-model price entry (USD per 1,000,000 tokens). -/
structure ModelPricing where
  inputPer1M : ℚ
  outputPer1M : ℚ
deriving DecidableEq

/-- `MODEL_PRICING`: the static price table of the vision service. -/
def MODEL_PRICING (model : String) : Option ModelPricing :=
  if model = "gpt-4o-mini" then some ⟨15/100, 60/100⟩
  else if model = "gpt-4o" then some ⟨25/10, 10⟩
  else if model = "gemini-2.0-flash" then some ⟨10/100, 40/100⟩
  else if model = "gemini-2.0-flash-lite" then some ⟨25/1000, 10/100⟩
  else if model = "gemini-1.5-pro" then some ⟨125/100, 5⟩
  else none

/-- `Math.round(x * 1_000_000) / 1_000_000`: 6-decimal rounding
(`Math.round` and Mathlib's `round` both take the floor of `x + 1/2`). -/
def roundTo6 (x : ℚ) : ℚ := ((round (x * 1000000) : ℤ) : ℚ) / 1000000

/-- `estimateCostUsd`: price-table lookup, per-million rates, 6-decimal
rounding; unknown models cost 0. -/
def estimateCostUsd (model : String) (usage : TokenUsage) : ℚ :=
  match MODEL_PRICING model with
  | none => 0
  | some pricing =>
    roundTo6 ((usage.inputTokens : ℚ) / 1000000 * pricing.inputPer1M
      + (usage.outputTokens : ℚ) / 1000000 * pricing.outputPer1M)

/-- Errors `runVerification` can throw. -/
inductive VError where
  | invalidConfig
  | exhausted (maxRetries : ℕ) (lastError : Option String)
deriving DecidableEq

/-- The fields of the returned verification result that the embedding
tracks (wall-clock stamps and the raw response echo are omitted). -/
structure VerificationResultI where
  passed : Bool
  overallConfidence : ℚ
  criteriaResults : List CriterionResult
  modelUsed : String
  retryCount : ℕ
  inputTokens : ℕ
  outputTokens : ℕ
  estimatedCostUsd : ℚ
deriving DecidableEq

/-- The retry loop as `runVerification` runs it (with the resolved
`maxRetries`). -/
def runVerificationLoop (f : ProviderBehavior) (config : PhotoVerificationConfig) :
    LoopResult :=
  retryLoop f (effectiveMaxRetries config.maxRetries)

/-- `runVerification`: validate the criteria list, resolve provider/model,
run the retry loop, then either fall back to a manual-review result /
throw exhaustion, or evaluate the criteria and assemble the result. -/
def runVerification (f : ProviderBehavior) (config : PhotoVerificationConfig) :
    Except VError VerificationResultI :=
  if config.criteria.isEmpty then Except.error VError.invalidConfig
  else
    let provider := config.provider.getD AIProvider.openai
    let model := resolveModel config provider
    let modelUsedLabel := providerName provider ++ "/" ++ model
    let m := effectiveMaxRetries config.maxRetries
    let loop := runVerificationLoop f config
    match loop.analysis with
    | none =>
      if config.fallbackToManual then
        Except.ok
          { passed := false
            overallConfidence := 0
            criteriaResults := []
            modelUsed := modelUsedLabel
            retryCount := loop.retryCount
            inputTokens := loop.usage.inputTokens
            outputTokens := loop.usage.outputTokens
            estimatedCostUsd := estimateCostUsd model loop.usage }
      else Except.error (VError.exhausted m loop.lastError)
    | some analysis =>
      Except.ok
        { passed := overallPassed analysis config
          overallConfidence := analysis.overall_confidence
          criteriaResults := evaluateCriteria analysis config
          modelUsed := modelUsedLabel
          retryCount := loop.retryCount
          inputTokens := loop.usage.inputTokens
          outputTokens := loop.usage.outputTokens
          estimatedCostUsd := estimateCostUsd model loop.usage }

/-- JavaScript truthiness of an optional string (`undefined` and `""` are
falsy). -/
def optTruthy : Option String → Bool
  | some s => !s.isEmpty
  | none => false

/-- The body accepted by `VerifyRequestSchema` (field types already
checked; the three `.refine` clauses are modelled below). -/
structure VerifyRequest where
  taskId : Option String := none
  externalTaskId : Option String := none
  imageUrl : Option String := none
  imageBase64 : Option String := none
  config : Option PhotoVerificationConfig := none
deriving DecidableEq

/-- The conjunction of the schema's three `.refine` clauses; the request
passes validation (no `VALIDATION_ERROR`) exactly when this is true. -/
def verifyRequestAccepted (r : VerifyRequest) : Bool :=
  (optTruthy r.imageUrl || optTruthy r.imageBase64)
    && (optTruthy r.taskId || optTruthy r.externalTaskId)
    && !(optTruthy r.externalTaskId && !r.config.isSome)

/-- Rate limit parameters. -/
structure RateLimitConfig where
  maxRequests : ℕ
  windowSeconds : ℕ
deriving DecidableEq

/-- Result of one rate-limit check (`remaining = -1` means "unknown"). -/
structure RateLimitResult where
  allowed : Bool
  remaining : ℤ
  resetAt : ℕ
deriving DecidableEq

/-- The counter store (Vercel KV) as an association list; the most recent
binding of a key is its current value. -/
def kvGet (store : List (String × ℕ)) (key : String) : ℕ :=
  match store.lookup key with
  | some n => n
  | none => 0

/-- `kv.incr(key)`: atomically increment and return the new value. -/
def kvIncr (store : List (String × ℕ)) (key : String) : ℕ × List (String × ℕ) :=
  let n := kvGet store key + 1
  (n, (key, n) :: store)

/-- The fixed-window counter key `rl:${key}:${floor(now / windowSeconds)}`. -/
def windowKeyOf (key : String) (now : ℕ) (config : RateLimitConfig) : String :=
  "rl:" ++ key ++ ":" ++ toString (now / config.windowSeconds)

/-- `checkRateLimit`: increments the window counter and allows iff the new
count is within the limit; when the store is unreachable (the `catch`
branch), fail open with `remaining = -1` and touch the store not at all.
`now` is in epoch seconds.  (The TTL set on a window's first increment
only garbage-collects old keys; the window semantics come from the key.) -/
def checkRateLimit (reachable : Bool) (store : List (String × ℕ)) (key : String)
    (now : ℕ) (config : RateLimitConfig) : RateLimitResult × List (String × ℕ) :=
  if reachable then
    let windowKey := windowKeyOf key now config
    let p := kvIncr store windowKey
    let resetAt := (now / config.windowSeconds + 1) * config.windowSeconds
    ({ allowed := decide (p.1 ≤ config.maxRequests)
       remaining := max 0 ((config.maxRequests : ℤ) - (p.1 : ℤ))
       resetAt := resetAt }, p.2)
  else
    ({ allowed := true, remaining := -1, resetAt := 0 }, store)

/-- `rateLimitMiddleware`'s store key: `${tenantId}:${endpoint}`. -/
def rateLimitKey (tenantId endpoint : String) : String := tenantId ++ ":" ++ endpoint

/-- The authenticated context handed to every route. -/
structure AuthContext where
  tenantId : String
  userId : Option String := none
  role : String
deriving DecidableEq

/-- A persisted verification row, restricted to the fields the billing
aggregation reads; `createdAt` is an abstract day number. -/
structure VerificationRow where
  tenantId : String
  modelUsed : String
  inputTokens : ℕ
  outputTokens : ℕ
  passed : Bool
  createdAt : ℕ
deriving DecidableEq

/-- `auth.role === 'admin' && searchParams.get('tenantId') ? ... : auth.tenantId`:
the tenant whose rows the billing queries aggregate. -/
def effectiveTenantId (auth : AuthContext) (tenantIdParam : Option String) : String :=
  if auth.role = "admin" ∧ optTruthy tenantIdParam = true
  then tenantIdParam.getD auth.tenantId
  else auth.tenantId

/-- The rows selected by every billing query's WHERE clause:
`tenant_id = ${tenantId} AND created_at >= from AND created_at < to + 1 day`. -/
def billingRows (db : List VerificationRow) (auth : AuthContext)
    (tenantIdParam : Option String) (fromD toD : ℕ) : List VerificationRow :=
  db.filter fun v =>
    v.tenantId == effectiveTenantId auth tenantIdParam
      && decide (fromD ≤ v.createdAt) && decide (v.createdAt < toD + 1)

/-- The aggregate fields a billing query computes over its selected rows. -/
structure BillingSummary where
  totalVerifications : ℕ
  totalInputTokens : ℕ
  totalOutputTokens : ℕ
  passedCount : ℕ
  failedCount : ℕ
deriving DecidableEq

/-- The summary aggregation (COUNT, SUMs, pass/fail counts). -/
def summarize (rows : List VerificationRow) : BillingSummary :=
  { totalVerifications := rows.length
    totalInputTokens := (rows.map (fun v => v.inputTokens)).sum
    totalOutputTokens := (rows.map (fun v => v.outputTokens)).sum
    passedCount := (rows.filter (fun v => v.passed)).length
    failedCount := (rows.filter (fun v => !v.passed)).length }

/-- The by-model breakdown: the summary of the selected rows of one model. -/
def byModelFor (rows : List VerificationRow) (model : String) : BillingSummary :=
  summarize (rows.filter (fun v => v.modelUsed == model))

/-- The time series: the summary of the selected rows in one bucket;
`bucket` abstracts `date_trunc` for the chosen granularity. -/
def timeSeriesFor (bucket : ℕ → ℕ) (rows : List VerificationRow) (b : ℕ) :
    BillingSummary :=
  summarize (rows.filter (fun v => bucket v.createdAt == b))

/-- The all-tenant rollup runs iff
`auth.role === 'admin' && !searchParams.get('tenantId')`. -/
def allTenantsRollup (auth : AuthContext) (tenantIdParam : Option String) : Bool :=
  (auth.role == "admin") && !(optTruthy tenantIdParam)

/-! ### Concrete fixtures

Small concrete instances used by witnesses and counterexamples.  Rational
literals are written with `mkRat` so that proofs by `decide` can evaluate
comparisons on them. -/

/-- A required boolean criterion with an expected value (the end-to-end
scenario of the spec). -/
def critGate : VerificationCriterion :=
  { id := "has_products", label := "Has products", type := CriterionType.boolean,
    required := true, expectedValue := some (JSValue.bool true) }

/-- A config with one required boolean criterion and `maxRetries = 2`. -/
def cfgGate : PhotoVerificationConfig :=
  { prompt := "check shelf", criteria := [critGate], provider := some AIProvider.openai,
    model := none, maxRetries := 2, fallbackToManual := true,
    confidenceThreshold := mkRat 8 10 }

/-- The same config with an explicit `maxRetries = 0`. -/
def cfgZero : PhotoVerificationConfig :=
  { prompt := "check shelf", criteria := [critGate], provider := some AIProvider.openai,
    model := none, maxRetries := 0, fallbackToManual := true,
    confidenceThreshold := mkRat 8 10 }

/-- A provider response that reports no criteria at all. -/
def analysisEmpty : VisionAnalysisResult :=
  { criteria_results := [], overall_assessment := "", overall_confidence := 0 }

/-- The provider reporting the gate criterion passing with confidence 0.92. -/
def rawHigh : RawCriterionResult :=
  { criterion_id := "has_products", passed := true, value := JSValue.bool true,
    confidence := mkRat 92 100, reasoning := "visible" }

/-- A successful provider analysis for `cfgGate`. -/
def analysisHigh : VisionAnalysisResult :=
  { criteria_results := [rawHigh], overall_assessment := "ok",
    overall_confidence := mkRat 92 100 }

/-- The provider reporting the gate criterion passing, but with
confidence 0.5, below the 0.8 threshold. -/
def rawLow : RawCriterionResult :=
  { criterion_id := "has_products", passed := true, value := JSValue.bool true,
    confidence := mkRat 5 10, reasoning := "hard to tell" }

/-- A provider analysis whose only criterion sits below the threshold. -/
def analysisLow : VisionAnalysisResult :=
  { criteria_results := [rawLow], overall_assessment := "unsure",
    overall_confidence := mkRat 5 10 }

/-- A provider whose every attempt throws. -/
def failingProvider : ProviderBehavior := fun _ => Except.error "provider unavailable"

/-- A count criterion with `min = 5`. -/
def critCount : VerificationCriterion :=
  { id := "facings", label := "Facings", type := CriterionType.count,
    required := true, min := some 5 }

/-- The provider reporting 4 facings as passing with confidence 0.9. -/
def rawCount4 : RawCriterionResult :=
  { criterion_id := "facings", passed := true, value := JSValue.num 4,
    confidence := mkRat 9 10, reasoning := "counted" }

/-- One rate-limit check of the demo scenario (`maxRequests = 3`,
`windowSeconds = 60`, tenant `t1`, endpoint `verify`). -/
def rlDemoStep (store : List (String × ℕ)) (now : ℕ) :
    RateLimitResult × List (String × ℕ) :=
  checkRateLimit true store (rateLimitKey "t1" "verify") now ⟨3, 60⟩

/-- Four calls in the same window, then one in the next. -/
def rlS1 : RateLimitResult × List (String × ℕ) := rlDemoStep [] 30

/-- Second call at second 40 of the same window. -/
def rlS2 : RateLimitResult × List (String × ℕ) := rlDemoStep rlS1.2 40

/-- Third call at second 50 of the same window. -/
def rlS3 : RateLimitResult × List (String × ℕ) := rlDemoStep rlS2.2 50

/-- Fourth call at second 59 of the same window. -/
def rlS4 : RateLimitResult × List (String × ℕ) := rlDemoStep rlS3.2 59

/-- Fifth call at second 65, in the next window. -/
def rlS5 : RateLimitResult × List (String × ℕ) := rlDemoStep rlS4.2 65

/-- A request supplying both image fields (and an internal task id). -/
def requestBothImages : VerifyRequest :=
  { taskId := some "task-1", imageUrl := some "https://img.example/a.jpg",
    imageBase64 := some "aGVsbG8=" }

/-- A non-admin caller. -/
def authViewer : AuthContext := { tenantId := "tenant-a", role := "viewer" }

/-- Two verification rows of different tenants. -/
def dbDemo : List VerificationRow :=
  [ { tenantId := "tenant-a", modelUsed := "openai/gpt-4o-mini", inputTokens := 100,
      outputTokens := 10, passed := true, createdAt := 5 },
    { tenantId := "tenant-b", modelUsed := "openai/gpt-4o-mini", inputTokens := 200,
      outputTokens := 20, passed := false, createdAt := 5 } ]

/-! ### Retry-loop lemmas -/

/-- When every attempt fails, the loop exhausts its fuel: no analysis, the
final `retryCount` (and attempt count) is the entry count plus the fuel,
and the token accumulator is untouched (failed attempts contribute none). -/
theorem retryGo_allFail (f : ProviderBehavior) (m : ℕ)
    (hf : ∀ i, ∃ e, f i = Except.error e) :
    ∀ fuel rc usage delays le, ∃ d l,
      retryGo f m fuel rc usage delays le = ⟨none, rc + fuel, usage, d, l, rc + fuel⟩ := by
  intro fuel
  induction fuel with
  | zero => intro rc usage delays le; exact ⟨delays, le, rfl⟩
  | succ n ih =>
    intro rc usage delays le
    obtain ⟨e, he⟩ := hf rc
    have hn : rc + 1 + n = rc + (n + 1) := by omega
    by_cases h : rc + 1 ≤ m
    · obtain ⟨d, l, hd⟩ := ih (rc + 1) usage (delays ++ [1000 * 2 ^ rc]) (some e)
      rw [hn] at hd
      exact ⟨d, l, by simp only [retryGo, he, if_pos h]; exact hd⟩
    · obtain ⟨d, l, hd⟩ := ih (rc + 1) usage delays (some e)
      rw [hn] at hd
      exact ⟨d, l, by simp only [retryGo, he, if_neg h]; exact hd⟩

/-- Shape of the loop under the fuel invariant `fuel + rc = m + 1`: the
attempt count stays between `rc` (plus one, while fuel remains) and
`m + 1`, and exactly one backoff delay of `1000·2^(rc+k)` ms is recorded
after every failed attempt that is followed by another one. -/
theorem retryGo_spec (f : ProviderBehavior) (m : ℕ) :
    ∀ fuel rc usage delays le, fuel + rc = m + 1 →
      rc ≤ (retryGo f m fuel rc usage delays le).attempts ∧
      (retryGo f m fuel rc usage delays le).attempts ≤ m + 1 ∧
      (1 ≤ fuel → rc + 1 ≤ (retryGo f m fuel rc usage delays le).attempts) ∧
      (retryGo f m fuel rc usage delays le).delays
        = delays ++ (List.range ((retryGo f m fuel rc usage delays le).attempts - 1 - rc)).map
            (fun k => 1000 * 2 ^ (rc + k)) := by
  intro fuel
  induction fuel with
  | zero =>
    intro rc usage delays le hinv
    simp only [retryGo]
    refine ⟨le_refl rc, by omega, by omega, by simp⟩
  | succ n ih =>
    intro rc usage delays le hinv
    cases hfr : f rc with
    | ok a =>
      refine ⟨by simp [retryGo, hfr], ?_, ?_, ?_⟩
      · simp only [retryGo, hfr]
        omega
      · intro _
        simp [retryGo, hfr]
      · simp [retryGo, hfr]
    | error e =>
      by_cases h : rc + 1 ≤ m
      · have hinv2 : n + (rc + 1) = m + 1 := by omega
        have hfuel : 1 ≤ n := by omega
        obtain ⟨h1, h2, h3, h4⟩ := ih (rc + 1) usage (delays ++ [1000 * 2 ^ rc]) (some e) hinv2
        have h3n := h3 hfuel
        simp only [retryGo, hfr, if_pos h]
        refine ⟨by omega, h2, fun _ => by omega, ?_⟩
        rw [h4, List.append_assoc]
        congr 1
        have ht : (retryGo f m n (rc + 1) usage (delays ++ [1000 * 2 ^ rc]) (some e)).attempts
            - 1 - rc
            = ((retryGo f m n (rc + 1) usage (delays ++ [1000 * 2 ^ rc]) (some e)).attempts
              - 1 - (rc + 1)) + 1 := by omega
        rw [ht, List.range_succ_eq_map, List.map_cons, List.map_map]
        simp only [List.singleton_append, Nat.add_zero]
        congr 1
        apply List.map_congr_left
        intro k _
        simp only [Function.comp_apply, Nat.succ_eq_add_one]
        have harg : rc + (k + 1) = rc + 1 + k := by omega
        rw [harg]
      · have hrc : rc = m := by omega
        have hn0 : n = 0 := by omega
        subst hn0
        simp only [retryGo, hfr, if_neg h]
        refine ⟨by omega, by omega, fun _ => by omega, ?_⟩
        simp [retryGo]

/-! ### C1: fallback result when every attempt fails -/

/-- C1 counterexample: with an explicit `maxRetries = 0`, a failing
provider and `fallbackToManual = true`, the returned `retryCount` is 3,
not 0 as the claim states (the code coerces `maxRetries 0` to 2 via `||`
and exits the loop with `retryCount = maxRetries + 1`). -/
theorem fallback_retryCount_zero_refuted :
    (runVerification failingProvider cfgZero).toOption.map (fun r => r.retryCount) = some 3
      ∧ (some 3 : Option ℕ) ≠ some 0 := by
  decide

/-- C1 (amended): when every attempt fails and `fallbackToManual` is true,
`runVerification` returns (rather than throws) a result with
`passed = false`, `overallConfidence = 0`, empty `criteriaResults`, the
accumulated token usage (zero, since only successful attempts credit
usage), and `retryCount = effectiveMaxRetries + 1`; with `maxRetries = 0`
three attempts are made and `retryCount = 3`. -/
theorem fallback_result_on_total_failure (f : ProviderBehavior)
    (config : PhotoVerificationConfig)
    (hf : ∀ i, ∃ e, f i = Except.error e)
    (hc : config.criteria ≠ [])
    (hfb : config.fallbackToManual = true) :
    ∃ r, runVerification f config = Except.ok r ∧
      r.passed = false ∧ r.overallConfidence = 0 ∧ r.criteriaResults = [] ∧
      r.inputTokens = 0 ∧ r.outputTokens = 0 ∧
      r.retryCount = effectiveMaxRetries config.maxRetries + 1 ∧
      (config.maxRetries = 0 →
        (runVerificationLoop f config).attempts = 3 ∧ r.retryCount = 3) := by
  obtain ⟨d, l, hd⟩ := retryGo_allFail f (effectiveMaxRetries config.maxRetries) hf
      (effectiveMaxRetries config.maxRetries + 1) 0 ⟨0, 0⟩ [] none
  have hloop : runVerificationLoop f config
      = ⟨none, effectiveMaxRetries config.maxRetries + 1, ⟨0, 0⟩, d, l,
          effectiveMaxRetries config.maxRetries + 1⟩ := by
    simpa [runVerificationLoop, retryLoop] using hd
  have hne : config.criteria.isEmpty = false := by
    cases h : config.criteria with
    | nil => exact absurd h hc
    | cons a t => rfl
  have hrun : runVerification f config = Except.ok
      { passed := false
        overallConfidence := 0
        criteriaResults := []
        modelUsed := providerName (config.provider.getD AIProvider.openai) ++ "/"
          ++ resolveModel config (config.provider.getD AIProvider.openai)
        retryCount := effectiveMaxRetries config.maxRetries + 1
        inputTokens := 0
        outputTokens := 0
        estimatedCostUsd :=
          estimateCostUsd (resolveModel config (config.provider.getD AIProvider.openai))
            ⟨0, 0⟩ } := by
    simp only [runVerification, hne, Bool.false_eq_true, if_false, hloop, hfb, if_true]
  refine ⟨_, hrun, rfl, rfl, rfl, rfl, rfl, rfl, fun h0 => ⟨?_, ?_⟩⟩
  · rw [hloop]
    simp [h0, effectiveMaxRetries]
  · simp [h0, effectiveMaxRetries]

/-- C1 witness: the amended theorem applied to the failing provider and
the `maxRetries = 0` config. -/
theorem fallback_result_on_total_failure_witness :
    (runVerification failingProvider cfgZero).toOption.map (fun r => r.passed) = some false := by
  obtain ⟨r, hr, hp, _, _, _, _, _, _⟩ :=
    fallback_result_on_total_failure failingProvider cfgZero
      (fun _ => ⟨"provider unavailable", rfl⟩) (by decide) rfl
  rw [hr]
  simp [Except.toOption, hp]

/-! ### C2: retry bound and backoff schedule -/

/-- C2 counterexample: with `maxRetries = 0` the orchestrator makes 3
analyze() attempts, more than the claimed bound of `1 + maxRetries = 1`
(JavaScript `config.maxRetries || 2` coerces the explicit 0 to 2). -/
theorem retry_bound_refuted :
    (runVerificationLoop failingProvider cfgZero).attempts = 3 ∧
    ¬((runVerificationLoop failingProvider cfgZero).attempts ≤ 1 + cfgZero.maxRetries) := by
  decide

/-- C2 (amended): `analyze()` is attempted at most
`1 + effectiveMaxRetries` times (`effectiveMaxRetries` is `maxRetries`,
except that 0 becomes 2); the waits between consecutive attempts are
exactly `1000·2^k` ms for `k = 0, 1, …` — in particular none follows the
final attempt; with `maxRetries = 2` and an always-failing provider
exactly 3 attempts occur with delays 1s then 2s. -/
theorem retry_attempt_bound_and_backoff (f : ProviderBehavior)
    (config : PhotoVerificationConfig) :
    (runVerificationLoop f config).attempts ≤ 1 + effectiveMaxRetries config.maxRetries ∧
    (runVerificationLoop f config).delays
      = (List.range ((runVerificationLoop f config).attempts - 1)).map
          (fun k => 1000 * 2 ^ k) ∧
    ((∀ i, ∃ e, f i = Except.error e) → config.maxRetries = 2 →
      (runVerificationLoop f config).attempts = 3 ∧
      (runVerificationLoop f config).delays = [1000, 2000]) := by
  have hrl : runVerificationLoop f config
      = retryGo f (effectiveMaxRetries config.maxRetries)
          (effectiveMaxRetries config.maxRetries + 1) 0 ⟨0, 0⟩ [] none := rfl
  obtain ⟨h1, h2, h3, h4⟩ := retryGo_spec f (effectiveMaxRetries config.maxRetries)
      (effectiveMaxRetries config.maxRetries + 1) 0 ⟨0, 0⟩ [] none (by omega)
  refine ⟨?_, ?_, ?_⟩
  · rw [hrl]
    omega
  · rw [hrl, h4]
    simp
  · intro hf hmr
    obtain ⟨d, l, hd⟩ := retryGo_allFail f (effectiveMaxRetries config.maxRetries) hf
        (effectiveMaxRetries config.maxRetries + 1) 0 ⟨0, 0⟩ [] none
    have hatt : (runVerificationLoop f config).attempts = 3 := by
      rw [hrl, hd]
      simp [hmr, effectiveMaxRetries]
    refine ⟨hatt, ?_⟩
    rw [hrl, h4, ← hrl, hatt]
    decide

/-- C2 witness: the amended theorem's concrete part at the failing
provider and the `maxRetries = 2` config. -/
theorem retry_attempt_bound_and_backoff_witness :
    (runVerificationLoop failingProvider cfgGate).attempts = 3 ∧
    (runVerificationLoop failingProvider cfgGate).delays = [1000, 2000] :=
  (retry_attempt_bound_and_backoff failingProvider cfgGate).2.2
    (fun _ => ⟨"provider unavailable", rfl⟩) rfl

/-! ### Evaluator lemmas -/

/-- Both branches of `evalOne` stamp the configured criterion's id. -/
theorem evalOne_criterionId (analysis : VisionAnalysisResult)
    (config : PhotoVerificationConfig) (criterion : VerificationCriterion) :
    (evalOne analysis config criterion).criterionId = criterion.id := by
  unfold evalOne
  cases analysis.criteria_results.find? (fun r => r.criterion_id == criterion.id) with
  | none => rfl
  | some result => rfl

/-- With pairwise-distinct criterion ids, looking a criterion's id up in
the mapped evaluator output returns that criterion's own result. -/
theorem find?_map_evalOne (analysis : VisionAnalysisResult)
    (config : PhotoVerificationConfig) :
    ∀ (L : List VerificationCriterion) (c : VerificationCriterion),
      c ∈ L → (L.map (fun x => x.id)).Nodup →
      (L.map (evalOne analysis config)).find? (fun r => r.criterionId == c.id)
        = some (evalOne analysis config c) := by
  intro L
  induction L with
  | nil => intro c hc _; cases hc
  | cons hd t ih =>
    intro c hc hnd
    rw [List.map_cons, List.nodup_cons] at hnd
    rcases List.mem_cons.mp hc with rfl | hct
    · rw [List.map_cons, List.find?_cons_of_pos]
      simp [evalOne_criterionId]
    · have hne : ((evalOne analysis config hd).criterionId == c.id) = false := by
        rw [evalOne_criterionId]
        have h2 : c.id ∈ t.map (fun x => x.id) := List.mem_map_of_mem _ hct
        have : hd.id ≠ c.id := fun he => hnd.1 (he ▸ h2)
        simpa using this
      rw [List.map_cons, List.find?_cons_of_neg _ (by simp [hne]), ih c hct hnd.2]

/-! ### C3: confidence gate -/

/-- C3 (confirmed): for a configured criterion the provider did report, a
per-criterion confidence strictly below the threshold forces the final
`passed` to `false`, regardless of anything else. -/
theorem confidence_gate_forces_fail (config : PhotoVerificationConfig)
    (analysis : VisionAnalysisResult) (i : ℕ) (crit : VerificationCriterion)
    (res : CriterionResult) (raw : RawCriterionResult)
    (hc : config.criteria[i]? = some crit)
    (hr : (evaluateCriteria analysis config)[i]? = some res)
    (hf : analysis.criteria_results.find? (fun r => r.criterion_id == crit.id) = some raw)
    (hlt : raw.confidence < config.confidenceThreshold) :
    res.passed = false := by
  have hmap : (evaluateCriteria analysis config)[i]? = some (evalOne analysis config crit) := by
    rw [evaluateCriteria, List.getElem?_map, hc]
    rfl
  rw [hmap] at hr
  obtain rfl : evalOne analysis config crit = res := Option.some.inj hr
  simp [evalOne, hf, hlt]

/-- C3 witness: a reported criterion with confidence 0.5 against a 0.8
threshold ends up failed. -/
theorem confidence_gate_forces_fail_witness :
    (evalOne analysisLow cfgGate critGate).passed = false :=
  confidence_gate_forces_fail cfgGate analysisLow 0 critGate
    (evalOne analysisLow cfgGate critGate) rawLow (by decide) rfl (by decide) (by decide)

/-! ### C4: overall verdict -/

/-- C4 (confirmed): with the data model's unique-ids invariant, the overall
verdict is true iff the overall confidence clears the threshold and every
required criterion's final result passed; optional criteria do not appear
in the condition. -/
theorem overall_verdict_iff (analysis : VisionAnalysisResult)
    (config : PhotoVerificationConfig)
    (hids : (config.criteria.map (fun c => c.id)).Nodup) :
    overallPassed analysis config = true ↔
      (config.confidenceThreshold ≤ analysis.overall_confidence ∧
       ∀ c ∈ config.criteria, c.required = true →
         (evalOne analysis config c).passed = true) := by
  unfold overallPassed requiredAllPassed
  rw [Bool.and_eq_true, decide_eq_true_iff]
  constructor
  · rintro ⟨hall, hconf⟩
    refine ⟨hconf, fun c hc hreq => ?_⟩
    have hmem : c ∈ config.criteria.filter (fun c => c.required) :=
      List.mem_filter.mpr ⟨hc, hreq⟩
    have := List.all_eq_true.mp hall c hmem
    rwa [show (evaluateCriteria analysis config).find? (fun r => r.criterionId == c.id)
        = some (evalOne analysis config c) from
      find?_map_evalOne analysis config config.criteria c hc hids] at this
  · rintro ⟨hconf, hreq⟩
    refine ⟨List.all_eq_true.mpr fun c hmem => ?_, hconf⟩
    obtain ⟨hc, hr⟩ := List.mem_filter.mp hmem
    rw [show (evaluateCriteria analysis config).find? (fun r => r.criterionId == c.id)
        = some (evalOne analysis config c) from
      find?_map_evalOne analysis config config.criteria c hc hids]
    exact hreq c hc hr

/-- C4 witness: the end-to-end scenario (required boolean criterion
reported true with confidence 0.92, threshold 0.8) passes overall. -/
theorem overall_verdict_iff_witness : overallPassed analysisHigh cfgGate = true :=
  (overall_verdict_iff analysisHigh cfgGate (by decide)).mpr ⟨by decide, by decide⟩

/-! ### C5: one result per criterion, missing criteria -/

/-- C5 counterexample: the reasoning emitted for an omitted criterion is
the string "Criterion was not evaluated by the model", not the claimed
"not evaluated". -/
theorem missing_reasoning_refuted :
    (evaluateCriteria analysisEmpty cfgGate).map (fun r => r.reasoning)
      = ["Criterion was not evaluated by the model"] ∧
    (evaluateCriteria analysisEmpty cfgGate).map (fun r => r.reasoning)
      ≠ ["not evaluated"] := by
  decide

/-- C5 (amended): the evaluator returns exactly one result per configured
criterion, in config order, and for a criterion id absent from the
provider's `criteria_results` it emits `passed = false`, `confidence = 0`,
value `"NOT_EVALUATED"` and the reasoning
"Criterion was not evaluated by the model". -/
theorem evaluator_shape_and_missing (analysis : VisionAnalysisResult)
    (config : PhotoVerificationConfig) :
    (evaluateCriteria analysis config).length = config.criteria.length ∧
    (∀ (i : ℕ) (crit : VerificationCriterion), config.criteria[i]? = some crit →
      (evaluateCriteria analysis config)[i]? = some (evalOne analysis config crit)) ∧
    (∀ crit, analysis.criteria_results.find? (fun r => r.criterion_id == crit.id) = none →
      evalOne analysis config crit =
        { criterionId := crit.id, label := crit.label, passed := false,
          value := JSValue.str "NOT_EVALUATED", confidence := 0,
          reasoning := "Criterion was not evaluated by the model" }) := by
  refine ⟨by simp [evaluateCriteria], ?_, ?_⟩
  · intro i crit hc
    rw [evaluateCriteria, List.getElem?_map, hc]
    rfl
  · intro crit hnone
    simp [evalOne, hnone, notEvaluatedResult]

/-- C5 witness: the single configured criterion against an empty provider
report. -/
theorem evaluator_shape_and_missing_witness :
    (evaluateCriteria analysisEmpty cfgGate).length = cfgGate.criteria.length ∧
    evalOne analysisEmpty cfgGate critGate = notEvaluatedResult critGate :=
  ⟨(evaluator_shape_and_missing analysisEmpty cfgGate).1,
   ((evaluator_shape_and_missing analysisEmpty cfgGate).2.2 critGate (by decide)).trans
     (by simp [notEvaluatedResult])⟩

/-! ### C6: type-specific overrides -/

/-- C6 (confirmed): before the confidence gate, a `count` criterion with a
bound set fails when the parsed observed number violates the bound; a
`boolean` criterion with `expectedValue` set gets
`passed = (value === expectedValue)` outright; a `text` criterion passes
the provider's verdict through; and for a reported criterion the final
`passed` is the pre-gate value filtered by the confidence gate while
value and reasoning pass through. -/
theorem type_specific_overrides (crit : VerificationCriterion)
    (raw : RawCriterionResult) (config : PhotoVerificationConfig)
    (analysis : VisionAnalysisResult) :
    (crit.type = CriterionType.count → ∀ q m, jsToCount raw.value = some q →
      crit.min = some m → q < m → passedPreGate crit raw = false) ∧
    (crit.type = CriterionType.count → ∀ q M, jsToCount raw.value = some q →
      crit.max = some M → M < q → passedPreGate crit raw = false) ∧
    (crit.type = CriterionType.boolean → ∀ ev, crit.expectedValue = some ev →
      passedPreGate crit raw = decide (raw.value = ev)) ∧
    (crit.type = CriterionType.text → passedPreGate crit raw = raw.passed) ∧
    (analysis.criteria_results.find? (fun r => r.criterion_id == crit.id) = some raw →
      (evalOne analysis config crit).passed
        = (if raw.confidence < config.confidenceThreshold then false
           else passedPreGate crit raw) ∧
      (evalOne analysis config crit).value = raw.value ∧
      (evalOne analysis config crit).reasoning = raw.reasoning) := by
  refine ⟨?_, ?_, ?_, ?_, ?_⟩
  · intro ht q m hq hmin hlt
    have h1 : ltOptQ (jsToCount raw.value) crit.min = true := by
      rw [hq, hmin]
      simp [ltOptQ, hlt]
    simp only [passedPreGate, countGate, ht, h1]
    cases hev : crit.expectedValue <;> simp [hmin]
  · intro ht q M hq hmax hlt
    have h1 : ltOptQ crit.max (jsToCount raw.value) = true := by
      rw [hq, hmax]
      simp [ltOptQ, hlt]
    simp only [passedPreGate, countGate, ht, h1]
    cases hev : crit.expectedValue <;> simp [hmax]
  · intro ht ev hev
    simp only [passedPreGate, hev, ht, if_pos]
  · intro ht
    simp only [passedPreGate, ht]
    cases hev : crit.expectedValue <;> simp
  · intro hfind
    refine ⟨?_, ?_, ?_⟩ <;> simp [evalOne, hfind]

/-- C6 witness: a count criterion with `min = 5` and observed value 4
fails even though the provider said it passed. -/
theorem type_specific_overrides_witness :
    passedPreGate critCount rawCount4 = false :=
  (type_specific_overrides critCount rawCount4 cfgGate analysisEmpty).1 rfl 4 5 rfl rfl
    (by decide)

/-! ### C7: verify request validation -/

/-- C7 counterexample: a request carrying BOTH `imageUrl` and
`imageBase64` passes schema validation, so a well-formed request does not
carry exactly one image field (the refinement only demands at least one). -/
theorem exactly_one_image_refuted :
    verifyRequestAccepted requestBothImages = true ∧
    optTruthy requestBothImages.imageUrl = true ∧
    optTruthy requestBothImages.imageBase64 = true := by
  decide

/-- C7 (amended): validation fails with the structured `VALIDATION_ERROR`
exactly when no image field is supplied, no task-identifying field is
supplied, or `externalTaskId` comes without `config`; an accepted request
carries at least one (possibly both) of `imageUrl`/`imageBase64`, and
always dispatches to one of the two modes. -/
theorem verify_request_validation (r : VerifyRequest) :
    (verifyRequestAccepted r = false ↔
      ((optTruthy r.imageUrl = false ∧ optTruthy r.imageBase64 = false) ∨
       (optTruthy r.taskId = false ∧ optTruthy r.externalTaskId = false) ∨
       (optTruthy r.externalTaskId = true ∧ r.config = none))) ∧
    (verifyRequestAccepted r = true →
      (optTruthy r.imageUrl = true ∨ optTruthy r.imageBase64 = true)) ∧
    (verifyRequestAccepted r = true →
      (optTruthy r.taskId = true ∨
        (optTruthy r.externalTaskId = true ∧ r.config.isSome = true))) := by
  unfold verifyRequestAccepted
  cases hconf : r.config <;>
    cases h1 : optTruthy r.imageUrl <;> cases h2 : optTruthy r.imageBase64 <;>
    cases h3 : optTruthy r.taskId <;> cases h4 : optTruthy r.externalTaskId <;>
    simp_all

/-- C7 witness: the amended theorem applied to the accepted two-image
request. -/
theorem verify_request_validation_witness :
    optTruthy requestBothImages.imageUrl = true ∨
      optTruthy requestBothImages.imageBase64 = true :=
  (verify_request_validation requestBothImages).2.1 (by decide)

/-! ### C8: rate limiter -/

/-- C8 (confirmed): a reachable check increments the fixed-window counter
(keyed by tenant, endpoint and `floor(now / windowSeconds)` through
`rateLimitKey`/`windowKeyOf`) and allows iff the new count is within
`maxRequests`; an unreachable store fails open with `remaining = -1`
and leaves the store untouched; with `maxRequests = 3` and
`windowSeconds = 60` the 4th call of a window is rejected and a call in
the next window is allowed again. -/
theorem rate_limit_behaviour (store : List (String × ℕ)) (key : String)
    (now : ℕ) (cfg : RateLimitConfig) :
    (kvGet (checkRateLimit true store key now cfg).2 (windowKeyOf key now cfg)
      = kvGet store (windowKeyOf key now cfg) + 1) ∧
    ((checkRateLimit true store key now cfg).1.allowed
      = decide (kvGet store (windowKeyOf key now cfg) + 1 ≤ cfg.maxRequests)) ∧
    (checkRateLimit false store key now cfg
      = ({ allowed := true, remaining := -1, resetAt := 0 }, store)) ∧
    (rlS1.1.allowed = true ∧ rlS2.1.allowed = true ∧ rlS3.1.allowed = true ∧
      rlS4.1.allowed = false ∧ rlS5.1.allowed = true) := by
  refine ⟨?_, ?_, rfl, by decide⟩
  · simp [checkRateLimit, kvIncr, kvGet, List.lookup]
  · simp [checkRateLimit, kvIncr, kvGet]

/-! ### C9: cost estimator -/

/-- C9 (confirmed): for a model in the price table the estimate is the
per-million-token formula rounded to 6 decimals; unknown models cost 0;
gpt-4o-mini at 1000 input and 500 output tokens costs 0.00045 USD. -/
theorem cost_estimator_spec (model : String) (pricing : ModelPricing)
    (usage : TokenUsage) :
    (MODEL_PRICING model = some pricing →
      estimateCostUsd model usage
        = roundTo6 ((usage.inputTokens : ℚ) / 1000000 * pricing.inputPer1M
            + (usage.outputTokens : ℚ) / 1000000 * pricing.outputPer1M)) ∧
    (MODEL_PRICING model = none → estimateCostUsd model usage = 0) ∧
    (MODEL_PRICING "gpt-4o-mini" = some ⟨15/100, 60/100⟩ ∧
      estimateCostUsd "gpt-4o-mini" ⟨1000, 500⟩ = 45/100000) := by
  refine ⟨fun h => ?_, fun h => ?_, rfl, ?_⟩
  · simp [estimateCostUsd, h]
  · simp [estimateCostUsd, h]
  · norm_num [estimateCostUsd, MODEL_PRICING, roundTo6, round_eq]

/-- C9 witness: the table-hit branch applied to gpt-4o-mini. -/
theorem cost_estimator_spec_witness :
    estimateCostUsd "gpt-4o-mini" ⟨1000, 500⟩
      = roundTo6 (((1000 : ℕ) : ℚ) / 1000000 * (15/100)
          + ((500 : ℕ) : ℚ) / 1000000 * (60/100)) :=
  (cost_estimator_spec "gpt-4o-mini" ⟨15/100, 60/100⟩ ⟨1000, 500⟩).1 rfl

/-! ### C10: billing tenant scoping -/

/-- C10 (confirmed): for a non-admin caller the billing aggregates
(summary, by-model, time series) are computed over exactly the caller's
own tenant's rows — any `tenantId` query parameter is ignored — and the
all-tenant rollup only ever runs for an admin that supplied no (truthy)
tenant filter. -/
theorem billing_tenant_scoping (db : List VerificationRow) (auth : AuthContext)
    (p q : Option String) (fromD toD : ℕ) :
    (auth.role ≠ "admin" →
      billingRows db auth p fromD toD = billingRows db auth q fromD toD ∧
      (∀ v ∈ billingRows db auth p fromD toD, v.tenantId = auth.tenantId) ∧
      summarize (billingRows db auth p fromD toD)
        = summarize (billingRows db auth q fromD toD) ∧
      (∀ m, byModelFor (billingRows db auth p fromD toD) m
        = byModelFor (billingRows db auth q fromD toD) m) ∧
      (∀ bucket b, timeSeriesFor bucket (billingRows db auth p fromD toD) b
        = timeSeriesFor bucket (billingRows db auth q fromD toD) b)) ∧
    (allTenantsRollup auth p = true → auth.role = "admin" ∧ optTruthy p = false) := by
  have heff : ∀ pp, auth.role ≠ "admin" → effectiveTenantId auth pp = auth.tenantId := by
    intro pp h
    unfold effectiveTenantId
    rw [if_neg]
    rintro ⟨h1, _⟩
    exact h h1
  constructor
  · intro h
    have hrows : billingRows db auth p fromD toD = billingRows db auth q fromD toD := by
      unfold billingRows
      rw [heff p h, heff q h]
    refine ⟨hrows, ?_, by rw [hrows], fun m => by rw [hrows], fun bucket b => by rw [hrows]⟩
    intro v hv
    unfold billingRows at hv
    rw [heff p h] at hv
    have hmem := (List.mem_filter.mp hv).2
    simp only [Bool.and_eq_true, beq_iff_eq] at hmem
    exact hmem.1.1
  · intro h
    unfold allTenantsRollup at h
    rw [Bool.and_eq_true] at h
    refine ⟨beq_iff_eq.mp h.1, ?_⟩
    cases ho : optTruthy p with
    | false => rfl
    | true => rw [ho] at h; simp at h

/-- C10 witness: a viewer querying another tenant's id gets the same rows
as with no filter at all. -/
theorem billing_tenant_scoping_witness :
    billingRows dbDemo authViewer (some "tenant-b") 0 10
      = billingRows dbDemo authViewer none 0 10 :=
  ((billing_tenant_scoping dbDemo authViewer (some "tenant-b") none 0 10).1
    (by decide)).1

end PhotoVerify
